import Mathlib

/-!
Shallow embedding of the MediBot backend (`app.py`): the resilient Gemini
API caller `call_gemini_api` with its retry/backoff loop, the history
formatter `format_history`, and the Flask routes `chat`, `summarize_chat`
and `analyze_symptoms`.  Python JSON values are modelled by `JsonValue`,
Python exceptions by `PyExc`, and the mocked upstream by a script mapping
the attempt index to the outcome of that attempt.  The loop additionally
records the sleeps it performs, the number of attempts made, and whether
the final fall-through return after the loop was reached.
-/

/-- A Python/JSON value: None, bool, int, str, list, dict (string keys). -/
inductive JsonValue where
  | null : JsonValue
  | bool (b : Bool) : JsonValue
  | num (n : Int) : JsonValue
  | str (s : String) : JsonValue
  | arr (vs : List JsonValue) : JsonValue
  | obj (fields : List (String × JsonValue)) : JsonValue


/-- Python exceptions that the embedded code can raise (propagate). -/
inductive PyExc where
  | httpError (status : Nat) : PyExc
  | indexError : PyExc
  | attributeError : PyExc
  | keyError : PyExc
  | typeError : PyExc


/-- Python `v.get(k, default)`: defaulted lookup on a dict; any non-dict
receiver raises AttributeError. -/
def pyGet (v : JsonValue) (k : String) (default : JsonValue) :
    Except PyExc JsonValue :=
  match v with
  | .obj fields => .ok ((fields.lookup k).getD default)
  | _ => .error .attributeError

/-- Python `v[0]`: first element of a list (IndexError when empty), first
character of a string, KeyError for a dict with string keys, TypeError
otherwise. -/
def pyIndex0 (v : JsonValue) : Except PyExc JsonValue :=
  match v with
  | .arr [] => .error .indexError
  | .arr (x :: _) => .ok x
  | .str s =>
    match s.data with
    | [] => .error .indexError
    | c :: _ => .ok (.str (String.mk [c]))
  | .obj _ => .error .keyError
  | _ => .error .typeError

/-- `result.get('candidates', [{}])[0].get('content', {}).get('parts',
[{}])[0].get('text', 'AI response failed to generate text.')` from
`call_gemini_api`, on the decoded 200-response body. -/
def extractText (result : JsonValue) : Except PyExc JsonValue := do
  let candidates ← pyGet result "candidates" (.arr [.obj []])
  let candidate ← pyIndex0 candidates
  let content ← pyGet candidate "content" (.obj [])
  let parts ← pyGet content "parts" (.arr [.obj []])
  let part ← pyIndex0 parts
  pyGet part "text" (.str "AI response failed to generate text.")

/-- Python truthiness of a JSON value (`if is_structured and schema:`). -/
def pyTruthy : JsonValue → Bool
  | .null => false
  | .bool b => b
  | .num n => n != 0
  | .str s => s != ""
  | .arr vs => !vs.isEmpty
  | .obj fields => !fields.isEmpty

/-- Truthiness of the optional `schema` argument (`None` is falsy). -/
def schemaTruthy : Option JsonValue → Bool
  | none => false
  | some v => pyTruthy v

/-- The outbound payload assembled at the top of `call_gemini_api`:
contents, tools (search grounding, unconditional), systemInstruction, and
a generationConfig that receives the JSON response mode exactly when
`is_structured and schema` is truthy. -/
def buildPayload (prompt system_instruction : String) (is_structured : Bool)
    (schema : Option JsonValue) : JsonValue :=
  let genConfig : JsonValue :=
    if is_structured && schemaTruthy schema then
      .obj [("responseMimeType", .str "application/json"),
            ("responseSchema", schema.getD .null)]
    else
      .obj []
  .obj [("contents", .arr [.obj [("parts", .arr [.obj [("text", .str prompt)]])]]),
        ("tools", .arr [.obj [("google_search", .obj [])]]),
        ("systemInstruction", .obj [("parts", .arr [.obj [("text", .str system_instruction)]])]),
        ("generationConfig", genConfig)]

/-- Defaulted lookup of a key in a JSON object (used to state payload
properties); `none` when the value is not an object or lacks the key. -/
def payloadLookup (v : JsonValue) (k : String) : Option JsonValue :=
  match v with
  | .obj fields => fields.lookup k
  | _ => none

/-- What one attempt of the mocked upstream does: fail at transport level
(`requests.exceptions.RequestException`) with an error description, or
deliver an HTTP response with a status code and a decoded JSON body. -/
inductive UpstreamResult where
  | transportError (msg : String) : UpstreamResult
  | http (status : Nat) (body : JsonValue) : UpstreamResult


/-- `response.raise_for_status()` raises for status codes 400..599. -/
def isHttpError (status : Nat) : Bool :=
  400 ≤ status && status ≤ 599

/-- The statuses the retry branch accepts: `status_code in [429, 500, 503]`. -/
def retryStatus (status : Nat) : Bool :=
  status == 429 || status == 500 || status == 503

/-- `max_retries = 5` in `call_gemini_api`. -/
def maxRetries : Nat := 5

/-- The observable outcome of one call to `call_gemini_api`: the assembled
outbound payload, the returned value or raised exception, the recorded
sleep durations in order, the number of attempts made, and whether the
final fall-through return after the loop was reached. -/
structure CallTrace where
  payload : JsonValue
  ret : Except PyExc JsonValue
  sleeps : List Nat
  attempts : Nat
  exhausted : Bool


/-- The body of the `try` after a non-raising `raise_for_status`: extract
the candidate text; when `is_structured`, `json.loads` it (a
`json.JSONDecodeError` is caught and turned into the parse-failure
string); otherwise return the text as is.  `loads` models the stdlib
`json.loads` on strings; applying it to a non-string raises TypeError. -/
def processSuccess (payload : JsonValue) (loads : String → Except String JsonValue)
    (structured : Bool) (body : JsonValue) (sleeps : List Nat) (attempts : Nat) :
    CallTrace :=
  match extractText body with
  | .error e => ⟨payload, .error e, sleeps, attempts, false⟩
  | .ok textVal =>
    if structured then
      match textVal with
      | .str s =>
        match loads s with
        | .ok v => ⟨payload, .ok v, sleeps, attempts, false⟩
        | .error _ =>
          ⟨payload,
           .ok (.str ("Error: Failed to parse AI response as JSON. Raw response: " ++ s)),
           sleeps, attempts, false⟩
      | _ => ⟨payload, .error .typeError, sleeps, attempts, false⟩
    else
      ⟨payload, .ok textVal, sleeps, attempts, false⟩

/-- The retry loop `for i in range(max_retries)` of `call_gemini_api`,
with `fuel` iterations left, the current `delay`, the current index `i`,
and the sleeps recorded so far.  Transport errors return an error string;
HTTP errors with a retryable status and retries remaining sleep `delay`,
double it and continue; other HTTP errors re-raise; a fuel-exhausted loop
falls through to the final return (flagged `exhausted`). -/
def callLoop (payload : JsonValue) (loads : String → Except String JsonValue)
    (structured : Bool) (script : Nat → UpstreamResult) :
    Nat → Nat → Nat → List Nat → CallTrace
  | 0, _, i, sleeps =>
    ⟨payload, .ok (.str "Error: Maximum number of retries reached for API request."),
     sleeps, i, true⟩
  | fuel + 1, delay, i, sleeps =>
    match script i with
    | .transportError msg =>
      ⟨payload, .ok (.str ("Error connecting to the Gemini API: " ++ msg)),
       sleeps, i + 1, false⟩
    | .http status body =>
      if isHttpError status then
        if retryStatus status && decide (i < maxRetries - 1) then
          callLoop payload loads structured script fuel (delay * 2) (i + 1)
            (sleeps ++ [delay])
        else
          ⟨payload, .error (.httpError status), sleeps, i + 1, false⟩
      else
        processSuccess payload loads structured body sleeps (i + 1)

/-- `call_gemini_api(prompt, system_instruction, is_structured, schema)`,
parameterised by the stdlib JSON parser `loads` and the mocked upstream
`script`. -/
def call_gemini_api (loads : String → Except String JsonValue)
    (script : Nat → UpstreamResult) (prompt system_instruction : String)
    (is_structured : Bool := false) (schema : Option JsonValue := none) :
    CallTrace :=
  callLoop (buildPayload prompt system_instruction is_structured schema)
    loads is_structured script maxRetries 1 0 []

/-- Python `str.capitalize()`: first character uppercased, the rest
lowercased (ASCII suffices for the roles used here). -/
def pyCapitalize (s : String) : String :=
  match s.data with
  | [] => ""
  | c :: rest => String.mk (c.toUpper :: rest.map Char.toLower)

/-- Python `sep.join(xs)`: empty string for the empty list, otherwise the
items interleaved with the separator. -/
def pyJoin (sep : String) : List String → String
  | [] => ""
  | [x] => x
  | x :: xs => x ++ sep ++ pyJoin sep xs

/-- One chat turn as supplied by the client: a role and a text. -/
structure ChatTurn where
  role : String
  text : String

/-- `format_history`: renders each turn as `Role: text` (role
capitalized) and joins the lines with newlines. -/
def format_history (history : List ChatTurn) : String :=
  pyJoin "\n" (history.map (fun item => pyCapitalize item.role ++ ": " ++ item.text))

/-- An HTTP response produced by a route: status code and JSON body. -/
structure HttpResponse where
  status : Nat
  body : JsonValue

mutual

/-- Python `repr()` of a JSON value. -/
def pyRepr : JsonValue → String
  | .null => "None"
  | .bool true => "True"
  | .bool false => "False"
  | .num n => toString n
  | .str s => "\x27" ++ s ++ "\x27"
  | .arr vs => "[" ++ String.intercalate ", " (pyReprList vs) ++ "]"
  | .obj fields => "\x7b" ++ String.intercalate ", " (pyReprFields fields) ++ "\x7d"

/-- `repr` of each element of a JSON list. -/
def pyReprList : List JsonValue → List String
  | [] => []
  | v :: vs => pyRepr v :: pyReprList vs

/-- `repr` of each key/value pair of a JSON dict. -/
def pyReprFields : List (String × JsonValue) → List String
  | [] => []
  | (k, v) :: fields => ("\x27" ++ k ++ "\x27: " ++ pyRepr v) :: pyReprFields fields

end

/-- Python `str()` of a JSON value (containers rendered via `repr`). -/
def pyStr : JsonValue → String
  | .str s => s
  | v => pyRepr v

/-- The system instruction of the `/api/chat` route. -/
def chatSystemInstruction : String :=
  "You are MediBot, a secure and professional AI health assistant. Your role is to provide general, " ++
  "helpful, and well-grounded health information based on the user\x27s query and the conversation context. " ++
  "STRICT RULE: NEVER provide a definitive diagnosis, specific treatment plan, or replace a real doctor. " ++
  "Always start the response with the disclaimer: \x27Disclaimer: I am an AI assistant and not a medical professional. " ++
  "Always consult a qualified doctor for diagnosis and treatment.\x27 Answer clearly and concisely."

/-- The system instruction of the `/api/summarize` route. -/
def summarizeSystemInstruction : String :=
  "You are MediBot\x27s administrative assistant. Your task is to provide a brief, professional summary " ++
  "of the user\x27s health concerns and the advice given by the bot so far. The summary must be a single, " ++
  "easy-to-read paragraph. Start the summary with \x27Conversation Summary:\x27."

/-- The system instruction of the `/api/analyze` route. -/
def analyzeSystemInstruction : String :=
  "You are a sophisticated medical triage AI. Analyze the user\x27s symptoms described in the chat history. " ++
  "Categorize the situation into one of these three categories: \x27Immediate Care (Emergency)\x27, \x27Monitor Closely (Moderate Risk)\x27, " ++
  "or \x27Common Ailment (Low Risk)\x27. Provide a brief reasoning for the category and a single, safe recommendation (e.g., \x27Consult a doctor immediately\x27 or \x27Rest and hydration\x27). " ++
  "Your output MUST be a JSON object conforming to the provided schema."

/-- The fixed JSON schema of the `/api/analyze` route. -/
def json_schema : JsonValue :=
  .obj [("type", .str "OBJECT"),
        ("properties", .obj [
          ("category", .obj [("type", .str "STRING"),
            ("description", .str "The determined risk category: \x27Immediate Care (Emergency)\x27, \x27Monitor Closely (Moderate Risk)\x27, or \x27Common Ailment (Low Risk)\x27.")]),
          ("reasoning", .obj [("type", .str "STRING"),
            ("description", .str "A brief justification (1-2 sentences) for the chosen category based on the symptoms.")]),
          ("recommendation", .obj [("type", .str "STRING"),
            ("description", .str "A single, safe, and actionable next step for the user.")])]),
        ("required", .arr [.str "category", .str "reasoning", .str "recommendation"])]

/-- The `/api/chat` route: `query` is `none` when the request body lacks
the key (`data.get('query', '')`).  Returns the HTTP response together
with the trace of the upstream call when one happened (`none` means
`call_gemini_api` was never invoked). -/
def chat (loads : String → Except String JsonValue)
    (script : Nat → UpstreamResult) (query : Option String)
    (history : List ChatTurn) : HttpResponse × Option CallTrace :=
  let user_query := query.getD ""
  if user_query = "" then
    (⟨400, .obj [("response", .str "Please provide a query.")]⟩, none)
  else
    let full_prompt :=
      "Previous Conversation Context:\n" ++ format_history history ++
      "\n\nNew User Query: " ++ user_query
    let trace := call_gemini_api loads script full_prompt chatSystemInstruction false none
    match trace.ret with
    | .ok v => (⟨200, .obj [("response", v)]⟩, some trace)
    | .error _ =>
      (⟨500, .obj [("response", .str "An internal server error occurred while processing the AI request.")]⟩,
       some trace)

/-- The `/api/summarize` route. -/
def summarize_chat (loads : String → Except String JsonValue)
    (script : Nat → UpstreamResult) (history : List ChatTurn) :
    HttpResponse × Option CallTrace :=
  if history.length < 2 then
    (⟨400, .obj [("response", .str "Not enough conversation history to summarize.")]⟩, none)
  else
    let history_text := format_history history
    let trace := call_gemini_api loads script history_text summarizeSystemInstruction false none
    match trace.ret with
    | .ok v => (⟨200, .obj [("response", v)]⟩, some trace)
    | .error _ =>
      (⟨500, .obj [("response", .str "An internal server error occurred during summarization.")]⟩,
       some trace)

/-- The `/api/analyze` route: structured call with the fixed schema; a
non-dict result is reported as a 500 with the result rendered into the
message, a raised exception as a generic 500. -/
def analyze_symptoms (loads : String → Except String JsonValue)
    (script : Nat → UpstreamResult) (history : List ChatTurn) :
    HttpResponse × Option CallTrace :=
  if history.length < 2 then
    (⟨400, .obj [("response", .str "Not enough symptom data in history for analysis.")]⟩, none)
  else
    let history_text := format_history history
    let trace := call_gemini_api loads script history_text analyzeSystemInstruction true (some json_schema)
    match trace.ret with
    | .ok (.obj fields) => (⟨200, .obj [("analysis", .obj fields)]⟩, some trace)
    | .ok v =>
      (⟨500, .obj [("response", .str ("Error: Could not process structured analysis. " ++ pyStr v))]⟩,
       some trace)
    | .error _ =>
      (⟨500, .obj [("response", .str "An internal server error occurred during symptom analysis.")]⟩,
       some trace)

/-- The `/` route: fixed readiness payload. -/
def home_status : HttpResponse :=
  ⟨200, .obj [("status", .str "MediBot Backend is running and ready for API calls!")]⟩

/-- A 200-response body whose first candidate carries the text `t`. -/
def okBodyText (t : String) : JsonValue :=
  .obj [("candidates", .arr [.obj [("content",
    .obj [("parts", .arr [.obj [("text", .str t)]])])]])]

/-- A JSON parser stub that fails on every input. -/
def loadsNone : String → Except String JsonValue := fun _ => .error "unparsed"

/-- A concrete structured analysis object. -/
def analysisObject : JsonValue :=
  .obj [("category", .str "Common Ailment (Low Risk)"),
        ("reasoning", .str "x"), ("recommendation", .str "y")]

/-- A JSON parser stub that parses exactly the input `ok`. -/
def loadsSample : String → Except String JsonValue :=
  fun s => if s = "ok" then .ok analysisObject else .error "bad"

/-- Mocked upstream: 503 on the first four attempts, then 200 with text. -/
def scriptBackoff : Nat → UpstreamResult :=
  fun i => if i < 4 then .http 503 (.obj []) else .http 200 (okBodyText "hello")

/-- Mocked upstream: transport failure on every attempt. -/
def scriptTransportFail : Nat → UpstreamResult := fun _ => .transportError "boom"

/-- Mocked upstream: 404 on every attempt. -/
def script404 : Nat → UpstreamResult := fun _ => .http 404 (.obj [])

/-- Mocked upstream: 503 on every attempt. -/
def script503 : Nat → UpstreamResult := fun _ => .http 503 (.obj [])

/-- Mocked upstream: 200 with candidate text `t` on every attempt. -/
def scriptOkText (t : String) : Nat → UpstreamResult :=
  fun _ => .http 200 (okBodyText t)

/-- Mocked upstream: 200 with an empty JSON object body on every attempt. -/
def scriptEmptyBody : Nat → UpstreamResult := fun _ => .http 200 (.obj [])

/-- Two concrete chat turns, enough history for summarize/analyze. -/
def twoTurns : List ChatTurn := [⟨"user", "a"⟩, ⟨"bot", "b"⟩]

/-- The four ways a 200-response body can lack the text path that
`extractText` walks with defaults: no `candidates` key, a first candidate
without `content`, a content without `parts`, or a first part without
`text`. -/
def lacksTextPath (body : JsonValue) : Prop :=
  (∃ fields, body = JsonValue.obj fields ∧ fields.lookup "candidates" = none) ∨
  (∃ fields cf rest, body = JsonValue.obj fields ∧
     fields.lookup "candidates" = some (.arr (JsonValue.obj cf :: rest)) ∧
     cf.lookup "content" = none) ∨
  (∃ fields cf rest ctf, body = JsonValue.obj fields ∧
     fields.lookup "candidates" = some (.arr (JsonValue.obj cf :: rest)) ∧
     cf.lookup "content" = some (.obj ctf) ∧ ctf.lookup "parts" = none) ∨
  (∃ fields cf rest ctf pf prest, body = JsonValue.obj fields ∧
     fields.lookup "candidates" = some (.arr (JsonValue.obj cf :: rest)) ∧
     cf.lookup "content" = some (.obj ctf) ∧
     ctf.lookup "parts" = some (.arr (JsonValue.obj pf :: prest)) ∧
     pf.lookup "text" = none)

/-!  Helper lemmas about one iteration of the retry loop. -/

/-- A transport-level failure returns the connection-error string at once. -/
theorem callLoop_transport {payload loads structured script fuel delay i sleeps msg}
    (h : script i = .transportError msg) :
    callLoop payload loads structured script (fuel + 1) delay i sleeps =
      ⟨payload, .ok (.str ("Error connecting to the Gemini API: " ++ msg)),
       sleeps, i + 1, false⟩ := by
  simp [callLoop, h]

/-- A retryable HTTP error with retries remaining sleeps and continues. -/
theorem callLoop_retry {payload loads structured script fuel delay i sleeps status body}
    (h : script i = .http status body) (hr : retryStatus status = true)
    (hi : i < maxRetries - 1) :
    callLoop payload loads structured script (fuel + 1) delay i sleeps =
      callLoop payload loads structured script fuel (delay * 2) (i + 1)
        (sleeps ++ [delay]) := by
  have hs : (status = 429 ∨ status = 500) ∨ status = 503 := by
    simpa [retryStatus] using hr
  have herr : isHttpError status = true := by
    rcases hs with (h' | h') | h' <;> subst h' <;> decide
  simp [callLoop, h, herr, hr, hi]

/-- An HTTP error that is non-retryable, or has no retries remaining,
re-raises the HTTPError. -/
theorem callLoop_raise {payload loads structured script fuel delay i sleeps status body}
    (h : script i = .http status body) (herr : isHttpError status = true)
    (hc : retryStatus status = false ∨ ¬ i < maxRetries - 1) :
    callLoop payload loads structured script (fuel + 1) delay i sleeps =
      ⟨payload, .error (.httpError status), sleeps, i + 1, false⟩ := by
  rcases hc with hc | hc <;> simp [callLoop, h, herr, hc]

/-- A non-error HTTP status proceeds to the success-processing path. -/
theorem callLoop_ok {payload loads structured script fuel delay i sleeps status body}
    (h : script i = .http status body) (herr : isHttpError status = false) :
    callLoop payload loads structured script (fuel + 1) delay i sleeps =
      processSuccess payload loads structured body sleeps (i + 1) := by
  simp [callLoop, h, herr]

/-- Unstructured success processing returns the extracted text value. -/
theorem processSuccess_unstructured {payload loads body sleeps attempts textVal}
    (h : extractText body = .ok textVal) :
    processSuccess payload loads false body sleeps attempts =
      ⟨payload, .ok textVal, sleeps, attempts, false⟩ := by
  simp [processSuccess, h]

/-- C1: when the upstream returns HTTP 503 on each of the first four
attempts and HTTP 200 with a text candidate on the fifth,
`call_gemini_api` makes exactly 5 attempts, sleeps exactly the delays
1, 2, 4, 8 seconds in that order, and returns the fifth response text as
a success. -/
theorem C1_backoff_sequence
    (loads : String → Except String JsonValue) (script : Nat → UpstreamResult)
    (b0 b1 b2 b3 body : JsonValue) (t prompt instr : String)
    (h0 : script 0 = .http 503 b0) (h1 : script 1 = .http 503 b1)
    (h2 : script 2 = .http 503 b2) (h3 : script 3 = .http 503 b3)
    (h4 : script 4 = .http 200 body)
    (htext : extractText body = .ok (.str t)) :
    (call_gemini_api loads script prompt instr false none).attempts = 5 ∧
    (call_gemini_api loads script prompt instr false none).sleeps = [1, 2, 4, 8] ∧
    (call_gemini_api loads script prompt instr false none).ret = .ok (.str t) := by
  have key : call_gemini_api loads script prompt instr false none =
      ⟨buildPayload prompt instr false none, .ok (.str t), [1, 2, 4, 8], 5, false⟩ := by
    show callLoop (buildPayload prompt instr false none) loads false script maxRetries 1 0 [] = _
    rw [show maxRetries = 4 + 1 from rfl]
    calc callLoop (buildPayload prompt instr false none) loads false script (4 + 1) 1 0 []
        = callLoop (buildPayload prompt instr false none) loads false script 4 2 1 [1] := by
          rw [callLoop_retry h0 (by decide) (by decide)]; norm_num
      _ = callLoop (buildPayload prompt instr false none) loads false script 3 4 2 [1, 2] := by
          rw [show (4 : Nat) = 3 + 1 from rfl, callLoop_retry h1 (by decide) (by decide)]
          norm_num
      _ = callLoop (buildPayload prompt instr false none) loads false script 2 8 3 [1, 2, 4] := by
          rw [show (3 : Nat) = 2 + 1 from rfl, callLoop_retry h2 (by decide) (by decide)]
          norm_num
      _ = callLoop (buildPayload prompt instr false none) loads false script 1 16 4 [1, 2, 4, 8] := by
          rw [show (2 : Nat) = 1 + 1 from rfl, callLoop_retry h3 (by decide) (by decide)]
          norm_num
      _ = ⟨buildPayload prompt instr false none, .ok (.str t), [1, 2, 4, 8], 5, false⟩ := by
          rw [show (1 : Nat) = 0 + 1 from rfl, callLoop_ok h4 (by decide),
              processSuccess_unstructured htext]
  rw [key]
  exact ⟨rfl, rfl, rfl⟩

/-- C1 witness: the concrete 503,503,503,503,200 script realises the
hypotheses and the conclusion of `C1_backoff_sequence`. -/
theorem C1_backoff_sequence_witness :
    (call_gemini_api loadsNone scriptBackoff "p" "s" false none).attempts = 5 ∧
    (call_gemini_api loadsNone scriptBackoff "p" "s" false none).sleeps = [1, 2, 4, 8] ∧
    (call_gemini_api loadsNone scriptBackoff "p" "s" false none).ret = .ok (.str "hello") :=
  C1_backoff_sequence loadsNone scriptBackoff (.obj []) (.obj []) (.obj []) (.obj [])
    (okBodyText "hello") "hello" "p" "s" rfl rfl rfl rfl rfl rfl

/-- Every retryable status (429, 500, 503) makes `raise_for_status` raise. -/
theorem retryStatus_isHttpError {status : Nat} (h : retryStatus status = true) :
    isHttpError status = true := by
  have hs : (status = 429 ∨ status = 500) ∨ status = 503 := by
    simpa [retryStatus] using h
  rcases hs with (h' | h') | h' <;> subst h' <;> decide

/-- C3: an HTTP error status outside 429, 500, 503 (such as 404) on the
first attempt makes `call_gemini_api` perform exactly one attempt, no
sleep, and re-raise the HTTPError immediately. -/
theorem C3_non_retryable_immediate
    (loads : String → Except String JsonValue) (script : Nat → UpstreamResult)
    (status : Nat) (body : JsonValue) (prompt instr : String)
    (structured : Bool) (schema : Option JsonValue)
    (herr : isHttpError status = true) (hnr : retryStatus status = false)
    (h0 : script 0 = .http status body) :
    (call_gemini_api loads script prompt instr structured schema).attempts = 1 ∧
    (call_gemini_api loads script prompt instr structured schema).sleeps = [] ∧
    (call_gemini_api loads script prompt instr structured schema).ret =
      .error (.httpError status) := by
  have key : call_gemini_api loads script prompt instr structured schema =
      ⟨buildPayload prompt instr structured schema, .error (.httpError status), [], 1, false⟩ := by
    show callLoop (buildPayload prompt instr structured schema) loads structured script
      maxRetries 1 0 [] = _
    rw [show maxRetries = 4 + 1 from rfl, callLoop_raise h0 herr (Or.inl hnr)]
  rw [key]
  exact ⟨rfl, rfl, rfl⟩

/-- C3 witness: the concrete always-404 script realises the hypotheses
and the conclusion of `C3_non_retryable_immediate`. -/
theorem C3_non_retryable_immediate_witness :
    (call_gemini_api loadsNone script404 "p" "s" false none).attempts = 1 ∧
    (call_gemini_api loadsNone script404 "p" "s" false none).sleeps = [] ∧
    (call_gemini_api loadsNone script404 "p" "s" false none).ret =
      .error (.httpError 404) :=
  C3_non_retryable_immediate loadsNone script404 404 (.obj []) "p" "s" false none
    (by decide) (by decide) rfl

/-- C4: retryable statuses (429, 500 or 503) on all five attempts make
`call_gemini_api` sleep 1, 2, 4, 8 and re-raise the HTTPError of the
fifth attempt, and the `/api/chat` route translates the raised error into
an HTTP 500 response with a generic message. -/
theorem C4_exhausted_retries
    (loads : String → Except String JsonValue) (script : Nat → UpstreamResult)
    (s0 s1 s2 s3 s4 : Nat) (b0 b1 b2 b3 b4 : JsonValue)
    (prompt instr : String) (structured : Bool) (schema : Option JsonValue)
    (q : String) (hist : List ChatTurn)
    (hr0 : retryStatus s0 = true) (hr1 : retryStatus s1 = true)
    (hr2 : retryStatus s2 = true) (hr3 : retryStatus s3 = true)
    (hr4 : retryStatus s4 = true)
    (h0 : script 0 = .http s0 b0) (h1 : script 1 = .http s1 b1)
    (h2 : script 2 = .http s2 b2) (h3 : script 3 = .http s3 b3)
    (h4 : script 4 = .http s4 b4) (hq : q ≠ "") :
    (call_gemini_api loads script prompt instr structured schema).attempts = 5 ∧
    (call_gemini_api loads script prompt instr structured schema).sleeps = [1, 2, 4, 8] ∧
    (call_gemini_api loads script prompt instr structured schema).ret =
      .error (.httpError s4) ∧
    (chat loads script (some q) hist).1 =
      ⟨500, .obj [("response", .str "An internal server error occurred while processing the AI request.")]⟩ := by
  have key : ∀ p i st sc, call_gemini_api loads script p i st sc =
      ⟨buildPayload p i st sc, .error (.httpError s4), [1, 2, 4, 8], 5, false⟩ := by
    intro p i st sc
    show callLoop (buildPayload p i st sc) loads st script maxRetries 1 0 [] = _
    rw [show maxRetries = 4 + 1 from rfl]
    calc callLoop (buildPayload p i st sc) loads st script (4 + 1) 1 0 []
        = callLoop (buildPayload p i st sc) loads st script 4 2 1 [1] := by
          rw [callLoop_retry h0 hr0 (by decide)]; norm_num
      _ = callLoop (buildPayload p i st sc) loads st script 3 4 2 [1, 2] := by
          rw [show (4 : Nat) = 3 + 1 from rfl, callLoop_retry h1 hr1 (by decide)]
          norm_num
      _ = callLoop (buildPayload p i st sc) loads st script 2 8 3 [1, 2, 4] := by
          rw [show (3 : Nat) = 2 + 1 from rfl, callLoop_retry h2 hr2 (by decide)]
          norm_num
      _ = callLoop (buildPayload p i st sc) loads st script 1 16 4 [1, 2, 4, 8] := by
          rw [show (2 : Nat) = 1 + 1 from rfl, callLoop_retry h3 hr3 (by decide)]
          norm_num
      _ = ⟨buildPayload p i st sc, .error (.httpError s4), [1, 2, 4, 8], 5, false⟩ := by
          rw [show (1 : Nat) = 0 + 1 from rfl,
              callLoop_raise h4 (retryStatus_isHttpError hr4) (Or.inr (by decide))]
  refine ⟨by rw [key], by rw [key], by rw [key], ?_⟩
  unfold chat
  simp only [Option.getD_some]
  rw [if_neg hq, key]

/-- C4 witness: the concrete always-503 script realises the hypotheses
and the conclusion of `C4_exhausted_retries`. -/
theorem C4_exhausted_retries_witness :
    (call_gemini_api loadsNone script503 "p" "s" false none).attempts = 5 ∧
    (call_gemini_api loadsNone script503 "p" "s" false none).sleeps = [1, 2, 4, 8] ∧
    (call_gemini_api loadsNone script503 "p" "s" false none).ret =
      .error (.httpError 503) ∧
    (chat loadsNone script503 (some "hi") []).1 =
      ⟨500, .obj [("response", .str "An internal server error occurred while processing the AI request.")]⟩ :=
  C4_exhausted_retries loadsNone script503 503 503 503 503 503
    (.obj []) (.obj []) (.obj []) (.obj []) (.obj []) "p" "s" false none "hi" []
    (by decide) (by decide) (by decide) (by decide) (by decide)
    rfl rfl rfl rfl rfl (by decide)

/-- C2 counterexample: on a transport-level failure `call_gemini_api`
returns an error string instead of raising, so `/api/chat` delivers it as
an HTTP 200 response, not the 500 the claim states (the no-retry part
does hold: exactly one attempt). -/
theorem C2_counterexample :
    (chat loadsNone scriptTransportFail (some "hi") []).1.status = 200 ∧
    ¬ (chat loadsNone scriptTransportFail (some "hi") []).1.status = 500 ∧
    ((chat loadsNone scriptTransportFail (some "hi") []).2.map CallTrace.attempts) = some 1 := by
  have h : (chat loadsNone scriptTransportFail (some "hi") []).1.status = 200 := rfl
  exact ⟨h, by rw [h]; decide, rfl⟩

/-- C2 amended: a transport-level failure is not retried (one attempt, no
sleep) and `call_gemini_api` returns the connection-error string;
`/api/chat` and `/api/summarize` deliver that string to the client inside
an HTTP 200 response, while `/api/analyze` delivers an HTTP 500 response
embedding it. -/
theorem C2_transport_no_retry
    (loads : String → Except String JsonValue) (script : Nat → UpstreamResult)
    (msg q : String) (hist hist2 : List ChatTurn)
    (h0 : script 0 = .transportError msg) (hq : q ≠ "") (hlen : 2 ≤ hist2.length) :
    (chat loads script (some q) hist).1 =
      ⟨200, .obj [("response", .str ("Error connecting to the Gemini API: " ++ msg))]⟩ ∧
    ((chat loads script (some q) hist).2.map CallTrace.attempts) = some 1 ∧
    ((chat loads script (some q) hist).2.map CallTrace.sleeps) = some [] ∧
    (summarize_chat loads script hist2).1 =
      ⟨200, .obj [("response", .str ("Error connecting to the Gemini API: " ++ msg))]⟩ ∧
    (analyze_symptoms loads script hist2).1 =
      ⟨500, .obj [("response", .str ("Error: Could not process structured analysis. " ++
        ("Error connecting to the Gemini API: " ++ msg)))]⟩ ∧
    ((analyze_symptoms loads script hist2).2.map CallTrace.attempts) = some 1 := by
  have key : ∀ p i st sc, call_gemini_api loads script p i st sc =
      ⟨buildPayload p i st sc,
       .ok (.str ("Error connecting to the Gemini API: " ++ msg)), [], 1, false⟩ := by
    intro p i st sc
    show callLoop (buildPayload p i st sc) loads st script maxRetries 1 0 [] = _
    rw [show maxRetries = 4 + 1 from rfl, callLoop_transport h0]
  have hnl : ¬ hist2.length < 2 := Nat.not_lt.mpr hlen
  refine ⟨?_, ?_, ?_, ?_, ?_, ?_⟩
  · unfold chat
    simp only [Option.getD_some]
    rw [if_neg hq, key]
  · unfold chat
    simp only [Option.getD_some]
    rw [if_neg hq, key]
    rfl
  · unfold chat
    simp only [Option.getD_some]
    rw [if_neg hq, key]
    rfl
  · unfold summarize_chat
    rw [if_neg hnl]
    simp only [key]
  · unfold analyze_symptoms
    rw [if_neg hnl]
    simp only [key, pyStr]
  · unfold analyze_symptoms
    rw [if_neg hnl]
    simp only [key]
    rfl

/-- C2 amended witness: a concrete transport failure realises the
hypotheses and the conclusion of `C2_transport_no_retry`. -/
theorem C2_transport_no_retry_witness :
    (chat loadsNone scriptTransportFail (some "hi") twoTurns).1 =
      ⟨200, .obj [("response", .str ("Error connecting to the Gemini API: " ++ "boom"))]⟩ ∧
    ((chat loadsNone scriptTransportFail (some "hi") twoTurns).2.map CallTrace.attempts) = some 1 ∧
    ((chat loadsNone scriptTransportFail (some "hi") twoTurns).2.map CallTrace.sleeps) = some [] ∧
    (summarize_chat loadsNone scriptTransportFail twoTurns).1 =
      ⟨200, .obj [("response", .str ("Error connecting to the Gemini API: " ++ "boom"))]⟩ ∧
    (analyze_symptoms loadsNone scriptTransportFail twoTurns).1 =
      ⟨500, .obj [("response", .str ("Error: Could not process structured analysis. " ++
        ("Error connecting to the Gemini API: " ++ "boom")))]⟩ ∧
    ((analyze_symptoms loadsNone scriptTransportFail twoTurns).2.map CallTrace.attempts) = some 1 :=
  C2_transport_no_retry loadsNone scriptTransportFail "boom" "hi" twoTurns twoTurns
    rfl (by decide) (by decide)

/-- C5: `/api/chat` with a missing or empty query returns 400 without
invoking `call_gemini_api`; `/api/summarize` and `/api/analyze` return
400 without invoking it when the history has fewer than 2 turns, and do
invoke it when the history has at least 2 turns. -/
theorem C5_input_validation
    (loads : String → Except String JsonValue) (script : Nat → UpstreamResult)
    (hist histShort histLong : List ChatTurn)
    (hshort : histShort.length < 2) (hlong : 2 ≤ histLong.length) :
    chat loads script none hist =
      (⟨400, .obj [("response", .str "Please provide a query.")]⟩, none) ∧
    chat loads script (some "") hist =
      (⟨400, .obj [("response", .str "Please provide a query.")]⟩, none) ∧
    summarize_chat loads script histShort =
      (⟨400, .obj [("response", .str "Not enough conversation history to summarize.")]⟩, none) ∧
    analyze_symptoms loads script histShort =
      (⟨400, .obj [("response", .str "Not enough symptom data in history for analysis.")]⟩, none) ∧
    (summarize_chat loads script histLong).2.isSome = true ∧
    (analyze_symptoms loads script histLong).2.isSome = true := by
  refine ⟨rfl, rfl, ?_, ?_, ?_, ?_⟩
  · unfold summarize_chat
    rw [if_pos hshort]
  · unfold analyze_symptoms
    rw [if_pos hshort]
  · unfold summarize_chat
    rw [if_neg (Nat.not_lt.mpr hlong)]
    simp only []
    rcases hret : (call_gemini_api loads script (format_history histLong)
        summarizeSystemInstruction false none).ret with e | v <;> simp [hret]
  · unfold analyze_symptoms
    rw [if_neg (Nat.not_lt.mpr hlong)]
    simp only []
    rcases hret : (call_gemini_api loads script (format_history histLong)
        analyzeSystemInstruction true (some json_schema)).ret with e | v
    · simp [hret]
    · cases v <;> simp [hret]

/-- C5 witness: concrete requests realise the hypotheses and the
conclusion of `C5_input_validation`. -/
theorem C5_input_validation_witness :
    chat loadsNone script404 none [] =
      (⟨400, .obj [("response", .str "Please provide a query.")]⟩, none) ∧
    chat loadsNone script404 (some "") [] =
      (⟨400, .obj [("response", .str "Please provide a query.")]⟩, none) ∧
    summarize_chat loadsNone script404 [] =
      (⟨400, .obj [("response", .str "Not enough conversation history to summarize.")]⟩, none) ∧
    analyze_symptoms loadsNone script404 [] =
      (⟨400, .obj [("response", .str "Not enough symptom data in history for analysis.")]⟩, none) ∧
    (summarize_chat loadsNone script404 twoTurns).2.isSome = true ∧
    (analyze_symptoms loadsNone script404 twoTurns).2.isSome = true :=
  C5_input_validation loadsNone script404 [] [] twoTurns (by decide) (by decide)

/-- Joining a list whose tail is nonempty interleaves one separator. -/
theorem pyJoin_cons (sep x : String) (xs : List String) (h : xs ≠ []) :
    pyJoin sep (x :: xs) = x ++ sep ++ pyJoin sep xs := by
  cases xs with
  | nil => exact absurd rfl h
  | cons y ys => rfl

/-- C6: `format_history` renders the empty history as the empty string, a
single turn as the capitalized role, a colon-space, and the text, and a
longer history as the first line, a newline, and the rendering of the
rest, in original order; on the concrete two-turn history it yields
`User: a\nBot: b`. -/
theorem C6_format_history (t : ChatTurn) (rest : List ChatTurn) (hne : rest ≠ []) :
    format_history [] = "" ∧
    format_history [t] = pyCapitalize t.role ++ ": " ++ t.text ∧
    format_history (t :: rest) =
      pyCapitalize t.role ++ ": " ++ t.text ++ "\n" ++ format_history rest ∧
    format_history [⟨"user", "a"⟩, ⟨"bot", "b"⟩] = "User: a\nBot: b" := by
  refine ⟨rfl, rfl, ?_, rfl⟩
  unfold format_history
  rw [List.map_cons,
      pyJoin_cons _ _ _ (fun hmap => hne (by simpa using hmap))]

/-- C6 witness: the order-preserving rendering at a concrete two-turn
history, via `C6_format_history`. -/
theorem C6_format_history_witness :
    format_history [] = "" ∧
    format_history [⟨"user", "a"⟩] = pyCapitalize "user" ++ ": " ++ "a" ∧
    format_history [⟨"user", "a"⟩, ⟨"bot", "b"⟩] =
      pyCapitalize "user" ++ ": " ++ "a" ++ "\n" ++ format_history [⟨"bot", "b"⟩] ∧
    format_history [⟨"user", "a"⟩, ⟨"bot", "b"⟩] = "User: a\nBot: b" :=
  C6_format_history ⟨"user", "a"⟩ [⟨"bot", "b"⟩] (List.cons_ne_nil _ _)

/-- C7: on an upstream success with `structured` set, the extracted text
is fed to `json.loads`: a successful parse returns the parsed value, and
a parse failure returns the failure string carrying the raw text. -/
theorem C7_structured_parse
    (loads : String → Except String JsonValue) (script : Nat → UpstreamResult)
    (body : JsonValue) (s prompt instr : String) (schema : Option JsonValue)
    (h0 : script 0 = .http 200 body) (htext : extractText body = .ok (.str s)) :
    (∀ v, loads s = .ok v →
       (call_gemini_api loads script prompt instr true schema).ret = .ok v) ∧
    (∀ e, loads s = .error e →
       (call_gemini_api loads script prompt instr true schema).ret =
         .ok (.str ("Error: Failed to parse AI response as JSON. Raw response: " ++ s))) := by
  have step : call_gemini_api loads script prompt instr true schema =
      processSuccess (buildPayload prompt instr true schema) loads true body [] 1 := by
    show callLoop (buildPayload prompt instr true schema) loads true script
      maxRetries 1 0 [] = _
    rw [show maxRetries = 4 + 1 from rfl, callLoop_ok h0 (by decide)]
  constructor
  · intro v hv
    rw [step]
    simp [processSuccess, htext, hv]
  · intro e he
    rw [step]
    simp [processSuccess, htext, he]

/-- C7 witness: with a sample parser that accepts exactly the text `ok`,
both branches of `C7_structured_parse` are realised concretely. -/
theorem C7_structured_parse_witness :
    (call_gemini_api loadsSample (scriptOkText "ok") "p" "s" true (some json_schema)).ret =
      .ok analysisObject ∧
    (call_gemini_api loadsSample (scriptOkText "nope") "p" "s" true (some json_schema)).ret =
      .ok (.str ("Error: Failed to parse AI response as JSON. Raw response: " ++ "nope")) :=
  ⟨(C7_structured_parse loadsSample (scriptOkText "ok") (okBodyText "ok") "ok" "p" "s"
      (some json_schema) rfl rfl).1 analysisObject rfl,
   (C7_structured_parse loadsSample (scriptOkText "nope") (okBodyText "nope") "nope" "p" "s"
      (some json_schema) rfl rfl).2 "bad" rfl⟩

/-- Success processing never reaches the fall-through return. -/
theorem processSuccess_exhausted {payload loads structured body sleeps attempts} :
    (processSuccess payload loads structured body sleeps attempts).exhausted = false := by
  unfold processSuccess
  repeat' split
  all_goals rfl

/-- Success processing preserves the assembled payload. -/
theorem processSuccess_payload {payload loads structured body sleeps attempts} :
    (processSuccess payload loads structured body sleeps attempts).payload = payload := by
  unfold processSuccess
  repeat' split
  all_goals rfl

/-- The retry loop returns the payload it was given, unchanged. -/
theorem callLoop_payload {payload loads structured script} :
    ∀ fuel delay i sleeps,
      (callLoop payload loads structured script fuel delay i sleeps).payload = payload := by
  intro fuel
  induction fuel with
  | zero => intro delay i sleeps; rfl
  | succ n ih =>
    intro delay i sleeps
    unfold callLoop
    split
    · rfl
    · split
      · split
        · exact ih (delay * 2) (i + 1) (sleeps ++ [delay])
        · rfl
      · exact processSuccess_payload

/-- C8: every call to `call_gemini_api`, for any endpoint inputs and any
value of the structured flag and schema, assembles a payload whose
`tools` entry is the search-grounding tool; no input disables it. -/
theorem C8_grounding_always
    (loads : String → Except String JsonValue) (script : Nat → UpstreamResult)
    (prompt instr : String) (structured : Bool) (schema : Option JsonValue) :
    payloadLookup (call_gemini_api loads script prompt instr structured schema).payload
      "tools" = some (.arr [.obj [("google_search", .obj [])]]) := by
  show payloadLookup (callLoop (buildPayload prompt instr structured schema)
    loads structured script maxRetries 1 0 []).payload "tools" = _
  rw [callLoop_payload]
  rfl

/-- With at least one iteration left and the invariant `i + fuel = 5`,
the retry loop never falls through: on the last index the retry guard
`i < max_retries - 1` is false, so every branch returns or raises. -/
theorem callLoop_not_exhausted {payload loads structured script} :
    ∀ fuel delay i sleeps, 0 < fuel → i + fuel = maxRetries →
      (callLoop payload loads structured script fuel delay i sleeps).exhausted = false := by
  intro fuel
  induction fuel with
  | zero => intro delay i sleeps h0 _; exact absurd h0 (lt_irrefl 0)
  | succ n ih =>
    intro delay i sleeps _ hsum
    have hm : i + (n + 1) = 5 := hsum
    unfold callLoop
    split
    · rfl
    · split
      · split
        · rename_i hcond
          have hi : i < maxRetries - 1 :=
            of_decide_eq_true ((Bool.and_eq_true _ _).mp hcond).2
          have hi4 : i < 4 := hi
          exact ih (delay * 2) (i + 1) (sleeps ++ [delay]) (by omega) (by omega)
        · rfl
      · exact processSuccess_exhausted

/-- C9: the final `Error: Maximum number of retries reached` return of
`call_gemini_api` is unreachable: every call completes inside the loop by
returning or raising, never by exhausting all iterations. -/
theorem C9_fallthrough_unreachable
    (loads : String → Except String JsonValue) (script : Nat → UpstreamResult)
    (prompt instr : String) (structured : Bool) (schema : Option JsonValue) :
    (call_gemini_api loads script prompt instr structured schema).exhausted = false := by
  show (callLoop (buildPayload prompt instr structured schema)
    loads structured script maxRetries 1 0 []).exhausted = false
  exact callLoop_not_exhausted maxRetries 1 0 [] (by decide) (by decide)

/-- A body lacking the candidates/content/parts/text path makes
`extractText` produce the literal placeholder default. -/
theorem extractText_default {body : JsonValue} (h : lacksTextPath body) :
    extractText body = .ok (.str "AI response failed to generate text.") := by
  rcases h with ⟨fields, rfl, hl⟩ | ⟨fields, cf, rest, rfl, hl, hc⟩ |
    ⟨fields, cf, rest, ctf, rfl, hl, hc, hp⟩ |
    ⟨fields, cf, rest, ctf, pf, prest, rfl, hl, hc, hp, ht⟩
  · simp [extractText, Bind.bind, Except.bind, pyGet, pyIndex0, hl]
  · simp [extractText, Bind.bind, Except.bind, pyGet, pyIndex0, hl, hc]
  · simp [extractText, Bind.bind, Except.bind, pyGet, pyIndex0, hl, hc, hp]
  · simp [extractText, Bind.bind, Except.bind, pyGet, pyIndex0, hl, hc, hp, ht]

/-- C10: on an unstructured call whose first attempt yields HTTP 200 with
a body lacking candidates, content, parts or a text field, the caller
returns the literal placeholder string as a successful text outcome, and
`/api/chat` delivers it to the client as HTTP 200, not as a failure. -/
theorem C10_missing_text_placeholder
    (loads : String → Except String JsonValue) (script : Nat → UpstreamResult)
    (body : JsonValue) (q : String) (hist : List ChatTurn)
    (h0 : script 0 = .http 200 body) (hb : lacksTextPath body) (hq : q ≠ "") :
    (∀ prompt instr, (call_gemini_api loads script prompt instr false none).ret =
       .ok (.str "AI response failed to generate text.")) ∧
    (chat loads script (some q) hist).1 =
      ⟨200, .obj [("response", .str "AI response failed to generate text.")]⟩ := by
  have key : ∀ p i, call_gemini_api loads script p i false none =
      ⟨buildPayload p i false none,
       .ok (.str "AI response failed to generate text."), [], 1, false⟩ := by
    intro p i
    show callLoop (buildPayload p i false none) loads false script maxRetries 1 0 [] = _
    rw [show maxRetries = 4 + 1 from rfl, callLoop_ok h0 (by decide),
        processSuccess_unstructured (extractText_default hb)]
  refine ⟨fun p i => by rw [key], ?_⟩
  unfold chat
  simp only [Option.getD_some]
  rw [if_neg hq, key]

/-- C10 witness: the empty-object body realises the hypotheses and the
conclusion of `C10_missing_text_placeholder`. -/
theorem C10_missing_text_placeholder_witness :
    (call_gemini_api loadsNone scriptEmptyBody "p" "s" false none).ret =
      .ok (.str "AI response failed to generate text.") ∧
    (chat loadsNone scriptEmptyBody (some "hi") []).1 =
      ⟨200, .obj [("response", .str "AI response failed to generate text.")]⟩ :=
  ⟨(C10_missing_text_placeholder loadsNone scriptEmptyBody (.obj []) "hi" [] rfl
      (Or.inl ⟨[], rfl, rfl⟩) (by decide)).1 "p" "s",
   (C10_missing_text_placeholder loadsNone scriptEmptyBody (.obj []) "hi" [] rfl
      (Or.inl ⟨[], rfl, rfl⟩) (by decide)).2⟩
